import Mathlib

/-!
# Verification of the CapstoneCH61 tabular import & reconciliation pipeline

Shallow embedding of the CSV import / reconciliation code of the repository:

* `pages/forms_sync.py` — `MemberSyncForm` (HQ member-list sync input parsing);
* `pages/forms_boutique.py` — `BoutiqueImportForm` (merchandise CSV parsing,
  standard and Shopify formats);
* `pages/views.py` — member CSV import (`_validate_csv_row`,
  `_parse_initiation_date`, `_create_member_from_row`, `_process_csv_row`,
  `_process_csv_file`), officer CSV import (`_validate_officer_csv_row`,
  `_parse_officer_date`, `_create_officer_from_row`,
  `_process_officer_csv_row`, `_process_officer_csv_file`) and the
  merchandise-import view (`import_products`);
* `pages/models.py` — the relevant slices of `MemberProfile` (including the
  status adjustment in `MemberProfile.save`), `ChapterLeadership` and
  `Product`.

Python strings are Lean `String`s; Python `None` is `Option.none`; CSV rows
(`csv.DictReader` rows) are association lists from header name to
`Option String`, where a `none` cell models the `restval = None` a short data
line produces.  Prices are `Rat` (the code round-trips `float` through
`Decimal(str(...))`; the decimal literals involved are exact).  Fallible
Python code (statements that can raise) is embedded in `Except String`.
-/

namespace Capstone

/-! ## Python string primitives

All primitives recurse structurally over the character list of the string, so
that every definition in this file evaluates by `rfl`/`decide` (the
corresponding Lean library functions run on string iterators with
well-founded recursion, which does not reduce definitionally). -/

/-- Python's truthiness for `a or b` on strings: the first operand if it is
non-empty, otherwise the second. -/
def pyOr (a b : String) : String := if a = "" then b else a

/-- Python `str.strip()` (no argument): remove leading and trailing
whitespace. -/
def pyStrip (s : String) : String :=
  ⟨((s.data.dropWhile Char.isWhitespace).reverse.dropWhile Char.isWhitespace).reverse⟩

/-- Python `str.lower()`. -/
def pyLower (s : String) : String := ⟨s.data.map Char.toLower⟩

/-- Python `str.upper()`. -/
def pyUpper (s : String) : String := ⟨s.data.map Char.toUpper⟩

/-- Python `s.startswith(pre)`. -/
def pyStartsWith (s pre : String) : Bool := pre.data.isPrefixOf s.data

/-- Python `s[n:]` (character slice). -/
def pyDrop (s : String) (n : Nat) : String := ⟨s.data.drop n⟩

/-- Python `s[:n]` (character slice). -/
def pyTake (s : String) (n : Nat) : String := ⟨s.data.take n⟩

/-- Split at every leftmost non-overlapping occurrence of the (non-empty)
separator `c :: sep`.  The fuel argument (instantiated with one more than the
input length, which every recursive call shrinks) keeps the recursion
structural, so the definition reduces definitionally. -/
def splitOnAux (c : Char) (sep : List Char) : Nat → List Char → List Char → List (List Char)
  | 0, l, cur => [cur.reverse ++ l]
  | _ + 1, [], cur => [cur.reverse]
  | fuel + 1, x :: xs, cur =>
    if (c :: sep).isPrefixOf (x :: xs) then
      cur.reverse :: splitOnAux c sep fuel ((x :: xs).drop (c :: sep).length) []
    else
      splitOnAux c sep fuel xs (x :: cur)

/-- Python `s.split(sep)` for a non-empty separator (also the semantics of
`str.replace` via join). -/
def pySplit (s sep : String) : List String :=
  match sep.data with
  | [] => [s]
  | c :: cs => (splitOnAux c cs (s.data.length + 1) s.data []).map String.mk

/-- Python `s.replace(a, b)` (all occurrences): `b.join(s.split(a))`. -/
def pyReplace (s a b : String) : String :=
  String.intercalate b (pySplit s a)

/-- Python `sub in s` (substring containment): `s.split(sub)` has more than
one part exactly when `sub` occurs in `s`. -/
def pyContains (s sub : String) : Bool := (pySplit s sub).length > 1

/-- Python `str.split()` with no argument: split on runs of whitespace,
discarding empty parts. -/
def pySplitWsAux : List Char → List Char → List String
  | [], cur => if cur.isEmpty then [] else [⟨cur.reverse⟩]
  | c :: cs, cur =>
    if c.isWhitespace then
      if cur.isEmpty then pySplitWsAux cs [] else ⟨cur.reverse⟩ :: pySplitWsAux cs []
    else pySplitWsAux cs (c :: cur)

def pySplitWs (s : String) : List String := pySplitWsAux s.data []

/-- Python `str.split('\n')`. -/
def pySplitLines (s : String) : List String := pySplit s "\n"

def digitsVal (l : List Char) : Nat := l.foldl (fun a c => a * 10 + (c.toNat - 48)) 0

/-- Models Python `float()` on plain decimal literals: optional surrounding
whitespace, optional sign, digits with at most one decimal point and at least
one digit.  Scientific notation, underscore separators and `inf`/`nan` are
outside the modelled input space (no input in this development uses them);
everything else raises `ValueError`, modelled as `none`. -/
def pyFloat (s : String) : Option Rat :=
  let t := (pyStrip s).data
  let (neg, t) := match t with
    | '-' :: r => (true, r)
    | '+' :: r => (false, r)
    | r => (false, r)
  let intPart := t.takeWhile Char.isDigit
  let rest := t.dropWhile Char.isDigit
  let signed := fun (q : Rat) => if neg then -q else q
  match rest with
  | [] =>
    if intPart = [] then none
    else some (signed (digitsVal intPart : Rat))
  | '.' :: frac =>
    if frac.all Char.isDigit ∧ intPart ++ frac ≠ [] then
      some (signed (mkRat (digitsVal (intPart ++ frac)) (10 ^ frac.length)))
    else none
  | _ => none

/-- Models Python `int()` on plain decimal literals: optional surrounding
whitespace, optional sign, one or more digits (same caveats as `pyFloat`). -/
def pyInt (s : String) : Option Int :=
  let t := (pyStrip s).data
  let (neg, t) := match t with
    | '-' :: r => (true, r)
    | '+' :: r => (false, r)
    | r => (false, r)
  if t ≠ [] ∧ t.all Char.isDigit then
    some (if neg then -(digitsVal t : Int) else (digitsVal t : Int))
  else none

/-! ## CSV rows (`csv.DictReader`) -/

/-- One cell of a `csv.DictReader` row: `none` is Python `None` (the `restval`
filled in when a data line is shorter than the header). -/
abbrev Cell := Option String

/-- A `csv.DictReader` row: association list header-name → cell. -/
abbrev Row := List (String × Cell)

/-- Python `row.get(k, default)`: the stored value if the key is present
(which may be `None`), otherwise the default. -/
def rowGet (row : Row) (k : String) (dflt : Cell) : Cell :=
  match row.lookup k with
  | some v => v
  | none => dflt

/-- `row.get(k, '').strip()`: raises `AttributeError` when the stored value is
`None`. -/
def rowGetStrip (row : Row) (k : String) : Except String String :=
  match rowGet row k (some "") with
  | some s => .ok (pyStrip s)
  | none => .error "'NoneType' object has no attribute 'strip'"

/-- `row.get(k)` used in a boolean position (`if row.get('textbox7'):`):
truthy iff the key is present with a non-empty string value. -/
def rowGetTruthy (row : Row) (k : String) : Bool :=
  match rowGet row k none with
  | some s => s ≠ ""
  | none => false

/-- Build a `csv.DictReader` row from the header and one data line: values are
zipped with the header, missing values become `None` (`restval`).  (Data lines
longer than the header, which `DictReader` stows under a `None` rest-key, do
not occur in this development.) -/
def dictRow : List String → List String → Row
  | [], _ => []
  | f :: fs, [] => (f, none) :: dictRow fs []
  | f :: fs, v :: vs => (f, some v) :: dictRow fs vs

/-- All rows read by a `csv.DictReader` from a header and the data lines. -/
def dictRows (fieldnames : List String) (records : List (List String)) : List Row :=
  records.map (dictRow fieldnames)

/-! ## Member sync with HQ (`pages/forms_sync.py` and the sync view) -/

/-- `MemberSyncForm._find_member_column` (`pages/forms_sync.py:55-61`). -/
def findMemberColumn (fieldnames : List String) : Option String :=
  let valid_names := ["member#", "member_number", "member number", "major_key"]
  fieldnames.find? (fun col => valid_names.contains (pyStrip (pyLower col)))

/-- `MemberSyncForm._extract_member_numbers` (`pages/forms_sync.py:63-73`):
returns the set (here: dedup-preserving list) of non-blank member numbers and
one error line per blank cell.  Rows are numbered from 2. -/
def extractMemberNumbers (rows : List Row) (memberColumn : String) :
    List String × List String :=
  let step := fun (acc : List String × List String) (p : Nat × Row) =>
    let (nums, errs) := acc
    let (rowNum, row) := p
    let memberNum := pyStrip ((rowGet row memberColumn (some "")).getD "")
    if memberNum ≠ "" then
      (if nums.contains memberNum then nums else nums ++ [memberNum], errs)
    else
      (nums, errs ++ [s!"Row {rowNum}: Missing member number"])
  (rows.enumFrom 2).foldl step ([], [])

/-! ## Member data model (`pages/models.py`) -/

/-- A date value (`datetime.date`). -/
structure PyDate where
  year : Nat
  month : Nat
  day : Nat
deriving Repr, DecidableEq

/-- Days in a month, with leap years (`datetime` validity checking). -/
def daysInMonth (y m : Nat) : Nat :=
  if m = 2 then
    if y % 4 = 0 ∧ (y % 100 ≠ 0 ∨ y % 400 = 0) then 29 else 28
  else if m ∈ [4, 6, 9, 11] then 30 else 31

/-- The slice of `django.contrib.auth.models.User` the import touches. -/
structure MUser where
  username : String
  email : String
  first_name : String
  last_name : String
deriving Repr, DecidableEq

/-- The slice of `MemberProfile` (`pages/models.py:150-236`) the pipeline
touches.  `username` stands for the `user` foreign key;
`marked_for_removal_date` is the 90-day grace-period timestamp (an abstract
instant, here a `Nat`). -/
structure MemberProfileR where
  username : String
  member_number : String
  status : String
  initiation_date : Option PyDate
  line_name : String
  line_number : String
  phone : String
  emergency_contact_name : String
  emergency_contact_phone : String
  address : String
  bio : String
  dues_current : Bool
  marked_for_removal_date : Option Nat
  removal_reason : String
deriving Repr, DecidableEq

/-- `MemberProfile.save` (`pages/models.py:229-236`): statuses outside the
protected list are recomputed from `dues_current`. -/
def memberProfileSave (p : MemberProfileR) : MemberProfileR :=
  if p.status ∈ ["financial_life_member", "non_financial_life_member", "new_member", "suspended"]
  then p
  else if p.dues_current then { p with status := "financial" }
  else { p with status := "non_financial" }

/-- The persisted member/user store the import reconciles against. -/
structure MemberStore where
  users : List MUser
  profiles : List MemberProfileR
deriving Repr, DecidableEq

def MemberStore.empty : MemberStore := ⟨[], []⟩

/-! ## HQ-list reconciliation sync (`sync_members_with_hq`)

The view `sync_members_with_hq` is routed at `pages/urls.py:205` but its body
is not part of the repository snapshot; only its URL declaration and the input
form (`MemberSyncForm`) are present. -/

/-- Modelled from the spec: the body of the view `sync_members_with_hq`
(routed at `pages/urls.py:205`), which is missing from the snapshot.  Per the
spec's reconcile-with-HQ-list contract: a member whose number is NOT in the
supplied HQ identifier set is marked with a grace-period timestamp equal to
"now" (not deleted, no other field touched); a member present in the list has
the grace-period marker cleared. -/
def syncWithHq (now : Nat) (hqNumbers : List String) (store : List MemberProfileR) :
    List MemberProfileR :=
  store.map fun m =>
    if hqNumbers.contains m.member_number then
      { m with marked_for_removal_date := none }
    else
      { m with marked_for_removal_date := some now }

/-! ## Member CSV import (`pages/views.py:1133-1396`) -/

/-- The tuple `_validate_csv_row` returns:
`(username, email, member_number, errors, should_skip)`; `username` is `None`
on the cannot-generate-username path. -/
structure ValidationResult where
  username : Option String
  email : String
  member_number : String
  errors : List String
  should_skip : Bool
deriving Repr, DecidableEq

/-- The lazy `row.get(a, '').strip() or row.get(b, '').strip() or
row.get(c, '').strip()` chains of the member import. -/
def rowGetStrip3 (row : Row) (a b c : String) : Except String String := do
  let x ← rowGetStrip row a
  if x ≠ "" then return x
  let y ← rowGetStrip row b
  if y ≠ "" then return y
  rowGetStrip row c

/-- `row.get(a, '').strip() or row.get(b, '').strip()` (lazy). -/
def rowGetStrip2 (row : Row) (a b : String) : Except String String := do
  let x ← rowGetStrip row a
  if x ≠ "" then return x
  rowGetStrip row b

/-- The IHQ `textbox7` fallback shared by `_validate_csv_row` and
`_create_member_from_row`: when a name part is missing and `textbox7` is
truthy, its first line's first word becomes the first name and the remaining
words the last name. -/
def textbox7Names (row : Row) (first_name last_name : String) :
    Except String (String × String) := do
  if rowGetTruthy row "textbox7" then
    let t7 ← rowGetStrip row "textbox7"
    let lines := pySplitLines t7
    let nameParts := pySplitWs (pyStrip (lines.headD ""))
    let fn := if first_name = "" ∧ nameParts ≠ [] then nameParts.headD "" else first_name
    let ln := if last_name = "" ∧ nameParts.length > 1 then
        String.intercalate " " (nameParts.drop 1)
      else last_name
    return (fn, ln)
  else
    return (first_name, last_name)

/-- `_validate_csv_row` (`pages/views.py:1133-1203`). -/
def validateCsvRow (store : MemberStore) (row : Row) (rowNum : Nat) :
    Except String ValidationResult := do
  let mn0 ← rowGetStrip3 row "member_number" "Member#" "MAJOR_KEY"
  let fn0 ← rowGetStrip3 row "first_name" "First Name" "FIRST_NAME"
  let ln0 ← rowGetStrip3 row "last_name" "Last Name" "LAST_NAME"
  let (member_number, first_name, last_name) ←
    if mn0 = "" ∨ fn0 = "" ∨ ln0 = "" then do
      let (fn, ln) ← textbox7Names row fn0 ln0
      let mn ←
        if mn0 = "" ∧ rowGetTruthy row "textbox3" then rowGetStrip row "textbox3"
        else pure mn0
      pure (mn, fn, ln)
    else pure (mn0, fn0, ln0)
  let email ← rowGetStrip2 row "email" "EMAIL"
  let uname0 ← rowGetStrip row "username"
  if uname0 = "" ∧ member_number = "" ∧ ¬(first_name ≠ "" ∧ last_name ≠ "") then
    return ⟨none, email, member_number,
      [s!"Row {rowNum}: Cannot generate username - need member_number or first/last name"], false⟩
  let username :=
    if uname0 ≠ "" then uname0
    else if member_number ≠ "" then "member_" ++ member_number
    else pyReplace (pyLower (first_name ++ "." ++ last_name)) " " "_"
  if member_number = "" then
    return ⟨some username, email, member_number,
      [s!"Row {rowNum}: Member number is required"], false⟩
  if store.profiles.any (fun p => p.member_number = member_number) then
    return ⟨some username, email, member_number, [], true⟩
  if username ≠ "" ∧ store.users.any (fun u => u.username = username) then
    return ⟨some username, email, member_number,
      [s!"Row {rowNum}: Username '{username}' already exists but member number is different"], false⟩
  return ⟨some username, email, member_number, [], false⟩

/-- Whether a string is one to two decimal digits with value in `[lo, hi]`
(the `strptime` field patterns for `%m` and `%d`). -/
def strptimeField (s : String) (lo hi : Nat) : Option Nat :=
  if s.data ≠ [] ∧ s.data.length ≤ 2 ∧ s.data.all Char.isDigit then
    let v := digitsVal s.data
    if lo ≤ v ∧ v ≤ hi then some v else none
  else none

/-- A `%Y` field: exactly four decimal digits, year ≥ 1 (`datetime` range). -/
def strptimeYear (s : String) : Option Nat :=
  if s.data.length = 4 ∧ s.data.all Char.isDigit ∧ digitsVal s.data ≥ 1 then
    some (digitsVal s.data)
  else none

def mkValidDate (y m d : Nat) : Option PyDate :=
  if 1 ≤ d ∧ d ≤ daysInMonth y m then some ⟨y, m, d⟩ else none

/-- `datetime.strptime(s, '%Y-%m-%d').date()`. -/
def parseDateYMD (s : String) : Option PyDate :=
  match pySplit s "-" with
  | [y, m, d] => do
    let yv ← strptimeYear y
    let mv ← strptimeField m 1 12
    let dv ← strptimeField d 1 31
    mkValidDate yv mv dv
  | _ => none

/-- `datetime.strptime(s, '%m/%d/%Y').date()`. -/
def parseDateMDY (s : String) : Option PyDate :=
  match pySplit s "/" with
  | [m, d, y] => do
    let yv ← strptimeYear y
    let mv ← strptimeField m 1 12
    let dv ← strptimeField d 1 31
    mkValidDate yv mv dv
  | _ => none

/-- `_parse_initiation_date` (`pages/views.py:1206-1217`): `(date, error)`. -/
def parseInitiationDate (dateStr : String) (rowNum : Nat) (username : String) :
    Option PyDate × Option String :=
  if pyStrip dateStr = "" then (none, none)
  else match parseDateYMD (pyStrip dateStr) with
  | some d => (some d, none)
  | none =>
    match parseDateMDY (pyStrip dateStr) with
    | some d => (some d, none)
    | none =>
      (none, some s!"Row {rowNum}: Invalid date format for '{username}'. Use YYYY-MM-DD or MM/DD/YYYY")

/-- `_create_member_from_row` (`pages/views.py:1220-1278`), including the
status adjustment `MemberProfile.save` applies on create. -/
def createMemberFromRow (store : MemberStore) (row : Row)
    (username email member_number : String) (initiationDate : Option PyDate) :
    Except String MemberStore := do
  let fn0 ← rowGetStrip3 row "first_name" "First Name" "FIRST_NAME"
  let ln0 ← rowGetStrip3 row "last_name" "Last Name" "LAST_NAME"
  let (first_name, last_name) ←
    if fn0 = "" ∨ ln0 = "" then textbox7Names row fn0 ln0
    else pure (fn0, ln0)
  let user : MUser := ⟨username, email, first_name, last_name⟩
  let duesRaw ← rowGetStrip row "dues_current"
  let dues0 := ["true", "yes", "1", "y", "paid", "current"].contains (pyLower duesRaw)
  let isLife := pyContains (pyUpper member_number) "LM"
  let auto_status := if isLife then "financial_life_member" else "financial"
  let dues_current := true  -- both branches of the auto-detect set dues_current = True
  let statusRaw ← rowGetStrip row "status"
  let status := pyOr statusRaw auto_status
  let line_name ← rowGetStrip row "line_name"
  let line_number ← rowGetStrip row "line_number"
  let phone ← rowGetStrip row "phone"
  let ecn ← rowGetStrip row "emergency_contact_name"
  let ecp ← rowGetStrip row "emergency_contact_phone"
  let address ← rowGetStrip row "address"
  let bio ← rowGetStrip row "bio"
  let profile := memberProfileSave
    { username := username
      member_number := member_number
      status := status
      initiation_date := initiationDate
      line_name := line_name
      line_number := line_number
      phone := phone
      emergency_contact_name := ecn
      emergency_contact_phone := ecp
      address := address
      bio := bio
      dues_current := dues_current
      marked_for_removal_date := none
      removal_reason := "" }
  let _ := dues0  -- the CSV dues flag is overwritten by the auto-detect above
  return ⟨store.users ++ [user], store.profiles ++ [profile]⟩

/-- `_process_csv_row` (`pages/views.py:1281-1303`): returns the updated store
and `(success, errors, skipped)`. -/
def processCsvRow (store : MemberStore) (row : Row) (rowNum : Nat) :
    Except String (MemberStore × Bool × List String × Bool) := do
  let v ← validateCsvRow store row rowNum
  if v.should_skip then return (store, false, [], true)
  if v.errors ≠ [] then return (store, false, v.errors, false)
  let dateStr ← match rowGet row "initiation_date" (some "") with
    | some s => pure s
    | none => Except.error "'NoneType' object has no attribute 'strip'"
  let (initDate, dateErr) := parseInitiationDate dateStr rowNum (v.username.getD "")
  let errors := match dateErr with | some e => [e] | none => []
  let store' ← createMemberFromRow store row (v.username.getD "") v.email v.member_number initDate
  return (store', true, errors, false)

/-- The loop body of `_process_csv_file` (`pages/views.py:1306-1329`), with the
accumulators `(success_count, error_count, skipped_count, errors)`; the
`try/except` around each row turns an exception into one error line and an
`error_count` increment. -/
def processCsvFileAux (store : MemberStore) (rows : List Row) (rowNum : Nat)
    (succ err skip : Nat) (errs : List String) :
    MemberStore × Nat × Nat × Nat × List String :=
  match rows with
  | [] => (store, succ, err, skip, errs)
  | r :: rs =>
    match processCsvRow store r rowNum with
    | .ok (store', success, rowErrs, skipped) =>
      if skipped then processCsvFileAux store' rs (rowNum + 1) succ err (skip + 1) (errs ++ rowErrs)
      else if success then processCsvFileAux store' rs (rowNum + 1) (succ + 1) err skip (errs ++ rowErrs)
      else processCsvFileAux store' rs (rowNum + 1) succ (err + 1) skip (errs ++ rowErrs)
    | .error e =>
      processCsvFileAux store rs (rowNum + 1) succ (err + 1) skip (errs ++ [s!"Row {rowNum}: {e}"])

/-- `_process_csv_file` (`pages/views.py:1306-1329`): rows are numbered from 2
(row 1 is the header); returns the final store and
`(success_count, error_count, skipped_count, errors)`. -/
def processCsvFile (store : MemberStore) (rows : List Row) :
    MemberStore × Nat × Nat × Nat × List String :=
  processCsvFileAux store rows 2 0 0 0 []

/-! ## Officer CSV import (`pages/views.py:1403-1619`) -/

/-- The slice of `ChapterLeadership` the officer import touches. -/
structure Officer where
  full_name : String
  position : String
  position_custom : String
  email : String
  phone : String
  bio : String
  display_order : Int
  is_active : Bool
deriving Repr, DecidableEq

/-- The `data` dict `_validate_officer_csv_row` builds (all raw strings). -/
structure OfficerData where
  full_name : String
  position : String
  email : String
  phone : String
  bio : String
  position_custom : String
  display_order : String
deriving Repr, DecidableEq

/-- `line.split(pat, 1)[1]`: everything after the first occurrence of `pat`
(callers guard on containment). -/
def pyAfterFirst (line pat : String) : String :=
  String.intercalate pat ((pySplit line pat).drop 1)

/-- `_validate_officer_csv_row` (`pages/views.py:1403-1479`): returns
`(data, errors, should_skip)` with `data = none` on the skip and error
paths. -/
def validateOfficerCsvRow (store : List Officer) (row : Row) (rowNum : Nat) :
    Except String (Option OfficerData × List String × Bool) := do
  let fullName0 ← rowGetStrip3 row "full_name" "Full Name" "FULL_NAME"
  let position0 ← rowGetStrip3 row "position" "Position" "POSITION"
  let email0 ← rowGetStrip3 row "email" "Email" "EMAIL"
  let phone0 ← rowGetStrip3 row "phone" "Phone" "PHONE"
  -- IHQ format fallbacks
  let full_name ←
    if fullName0 = "" ∧ rowGetTruthy row "textbox7" then do
      let t7 ← rowGetStrip row "textbox7"
      let firstLine := (pySplitLines t7).headD ""
      if pyStrip firstLine ≠ "" then
        let nm := pyStrip firstLine
        pure (if pyStartsWith nm "Bro. " then pyDrop nm 5 else nm)
      else pure fullName0
    else pure fullName0
  let position ←
    if position0 = "" ∧ rowGetTruthy row "textbox5" then do
      let t5 ← rowGetStrip row "textbox5"
      let firstLine := (pySplitLines t5).headD ""
      if pyStrip firstLine ≠ "" then pure (pyStrip firstLine) else pure position0
    else pure position0
  let email ←
    if email0 = "" ∧ rowGetTruthy row "textbox11" then do
      let t11 ← rowGetStrip row "textbox11"
      match (pySplitLines t11).find? (fun l => pyStartsWith (pyStrip l) "Email:") with
      | some line => pure (pyStrip (pyReplace line "Email:" ""))
      | none => pure email0
    else pure email0
  let phone ←
    if phone0 = "" ∧ rowGetTruthy row "textbox11" then do
      let t11 ← rowGetStrip row "textbox11"
      match (pySplitLines t11).find? (fun l => pyContains l "Phone:") with
      | some line => pure (pyStrip (pyAfterFirst line "Phone:"))
      | none => pure phone0
    else pure phone0
  -- Skip vacant positions
  if pyContains full_name "Vacant Position" ∨ full_name = "" then
    return (none, [], true)
  if position = "" then
    return (none, [s!"Row {rowNum}: Position is required"], false)
  -- Duplicate check: raw full_name and raw position against the store
  if store.any (fun o => o.full_name = full_name ∧ o.position = position ∧ o.is_active) then
    return (none, [], true)
  let bio ← rowGetStrip3 row "bio" "Bio" "BIO"
  let position_custom ← rowGetStrip row "position_custom"
  let displayOrder0 ← rowGetStrip row "display_order"
  return (some ⟨full_name, position, email, phone, bio, position_custom,
    pyOr displayOrder0 "0"⟩, [], false)

/-- The `position_map` of `_create_officer_from_row`
(`pages/views.py:1498-1513`). -/
def positionMap : List (String × String) :=
  [("president", "president"),
   ("1st vice president", "vice_president_1st"),
   ("2nd vice president", "vice_president_2nd"),
   ("vice president", "vice_president_1st"),
   ("vp", "vice_president_1st"),
   ("secretary", "secretary"),
   ("financial secretary", "secretary"),
   ("treasurer", "treasurer"),
   ("parliamentarian", "parliamentarian"),
   ("chaplain", "chaplain"),
   ("historian", "historian"),
   ("sergeant at arms", "sergeant_at_arms"),
   ("board member", "board_member"),
   ("board", "board_member")]

/-- `_create_officer_from_row` (`pages/views.py:1495-1536`); `int()` on a
non-numeric `display_order` raises (caught by the per-row `try`). -/
def createOfficerFromRow (data : OfficerData) : Except String Officer := do
  let position_value := (positionMap.lookup (pyLower data.position)).getD "other"
  let position_custom :=
    if position_value = "other" then data.position
    else if data.position_custom ≠ "" then data.position_custom
    else ""
  let displayOrder ← match pyInt data.display_order with
    | some n => pure n
    | none => Except.error s!"invalid literal for int() with base 10: {data.display_order}"
  return ⟨data.full_name, position_value, position_custom, data.email, data.phone,
    data.bio, displayOrder, true⟩

/-- `_process_officer_csv_row` (`pages/views.py:1539-1552`). -/
def processOfficerCsvRow (store : List Officer) (row : Row) (rowNum : Nat) :
    Except String (List Officer × Bool × List String × Bool) := do
  let (data, errors, should_skip) ← validateOfficerCsvRow store row rowNum
  if should_skip then return (store, true, [], true)
  if errors ≠ [] then return (store, false, errors, false)
  match data with
  | some d =>
    let officer ← createOfficerFromRow d
    return (store ++ [officer], true, [], false)
  | none => return (store, true, [], false)

/-- Loop body of `_process_officer_csv_file` (`pages/views.py:1555-1578`). -/
def processOfficerCsvFileAux (store : List Officer) (rows : List Row) (rowNum : Nat)
    (succ err skip : Nat) (errs : List String) :
    List Officer × Nat × Nat × Nat × List String :=
  match rows with
  | [] => (store, succ, err, skip, errs)
  | r :: rs =>
    match processOfficerCsvRow store r rowNum with
    | .ok (store', success, rowErrs, skipped) =>
      if skipped then
        processOfficerCsvFileAux store' rs (rowNum + 1) succ err (skip + 1) (errs ++ rowErrs)
      else if success then
        processOfficerCsvFileAux store' rs (rowNum + 1) (succ + 1) err skip (errs ++ rowErrs)
      else
        processOfficerCsvFileAux store' rs (rowNum + 1) succ (err + 1) skip (errs ++ rowErrs)
    | .error e =>
      processOfficerCsvFileAux store rs (rowNum + 1) succ (err + 1) skip (errs ++ [s!"Row {rowNum}: {e}"])

/-- `_process_officer_csv_file` (`pages/views.py:1555-1578`). -/
def processOfficerCsvFile (store : List Officer) (rows : List Row) :
    List Officer × Nat × Nat × Nat × List String :=
  processOfficerCsvFileAux store rows 2 0 0 0 []

/-- The header-row search of `import_members` (`pages/views.py:1365-1371`):
the first line containing `MAJOR_KEY`, or containing both `FIRST_NAME` and
`LAST_NAME`, as case-sensitive substrings; when no line matches, index 0 is
used. -/
def findHeaderRowIndex (lines : List String) : Nat :=
  (lines.findIdx? (fun line =>
    pyContains line "MAJOR_KEY" ||
      (pyContains line "FIRST_NAME" && pyContains line "LAST_NAME"))).getD 0

/-! ## Merchandise CSV parsing (`pages/forms_boutique.py`) -/

/-- `file_content.startswith(BOM)` / `file_content[1:]`: strip a leading
byte-order mark (`pages/forms_boutique.py:75-76`). -/
def stripBomStr (s : String) : String :=
  match s.data with
  | c :: rest => if c = '\uFEFF' then String.mk rest else s
  | [] => s

/-- A BOM in the file content surfaces as a prefix of the first header. -/
def stripBomHead : List String → List String
  | [] => []
  | h :: t => stripBomStr h :: t

/-- The outcome of the format detection in `BoutiqueImportForm.parse_csv`
(`pages/forms_boutique.py:81-105`). -/
inductive BoutiqueFormat where
  | emptyFile
  | shopify
  | missingColumns (missing : List String)
  | standard
deriving Repr, DecidableEq

/-- Format detection of `BoutiqueImportForm.parse_csv`
(`pages/forms_boutique.py:81-105`): Shopify iff the lower-cased, stripped
headers contain both `title` and `variant price`; otherwise standard, provided
`name`, `category` and `price` are all present. -/
def detectBoutiqueFormat (fieldnames : List String) : BoutiqueFormat :=
  if fieldnames.isEmpty then .emptyFile
  else
    let fl := fieldnames.map (fun f => pyStrip (pyLower f))
    if fl.contains "title" ∧ fl.contains "variant price" then .shopify
    else
      let missing := ["name", "category", "price"].filter (fun f => ¬ fl.contains f)
      if missing ≠ [] then .missingColumns missing else .standard

/-- One parsed product record (the dicts `parse_csv` returns). -/
structure ProductData where
  name : String
  category : String
  price : Rat
  description : String
  inventory : Int
  sizes : String
  colors : String
  image_url : String
  image_path : String
deriving Repr, DecidableEq

/-- Scan for the `'>'` closing a markup tag, returning the suffix after it. -/
def goClose : List Char → Option (List Char)
  | [] => none
  | c :: cs => if c = '>' then some cs else goClose cs

/-- A match of `[^>]+>` starting here: the first character must not be `'>'`
(the `+` needs at least one tag character). -/
def findClose : List Char → Option (List Char)
  | [] => none
  | c :: cs => if c = '>' then none else goClose cs

/-- `re.sub(r'<[^>]+>', '', s)` on the character list: at each `'<'` that
starts a complete tag, drop through its closing `'>'`; other characters pass
through (`pages/forms_boutique.py:166`).  Fuel-structured recursion as in
`splitOnAux`. -/
def stripTags : Nat → List Char → List Char
  | 0, l => l
  | _ + 1, [] => []
  | fuel + 1, c :: cs =>
    if c = '<' then
      match findClose cs with
      | some rest => stripTags fuel rest
      | none => c :: stripTags fuel cs
    else c :: stripTags fuel cs

def pyStripTags (s : String) : String := ⟨stripTags (s.data.length + 1) s.data⟩

/-- `float(row.get(k, 0) or 0)` with the negative clamp and the
`except (ValueError, TypeError): 0` fallback
(`pages/forms_boutique.py:148-153`, `232-238`, `240-245`): a missing key, a
`None` cell and an empty string all give `0`, an unparseable string gives `0`
via the `except`. -/
def pyFloatField (c : Cell) (absent : Bool) : Rat :=
  if absent then 0
  else match c with
  | none => 0
  | some s =>
    if s = "" then 0
    else match pyFloat s with
    | some q => if q < 0 then 0 else q
    | none => 0

def rowFloatField (row : Row) (k : String) : Rat :=
  match row.lookup k with
  | some c => pyFloatField c false
  | none => pyFloatField none true

/-- `int(row.get(k, 0) or 0)` with the same clamping/fallback as
`rowFloatField`. -/
def pyIntField (c : Cell) (absent : Bool) : Int :=
  if absent then 0
  else match c with
  | none => 0
  | some s =>
    if s = "" then 0
    else match pyInt s with
    | some n => if n < 0 then 0 else n
    | none => 0

def rowIntField (row : Row) (k : String) : Int :=
  match row.lookup k with
  | some c => pyIntField c false
  | none => pyIntField none true

/-- The Shopify `Type` → category keyword mapping
(`pages/forms_boutique.py:136-145`). -/
def shopifyCategory (shopifyType : String) : String :=
  if shopifyType = "" then "other"
  else if ["shirt", "apparel", "clothing", "jacket", "hoodie", "polo", "tee"].any
      (fun w => pyContains shopifyType w) then "apparel"
  else if ["accessory", "accessories", "hat", "cap", "bag", "pin", "lanyard"].any
      (fun w => pyContains shopifyType w) then "accessories"
  else if ["drinkware", "mug", "cup", "tumbler", "bottle", "glass"].any
      (fun w => pyContains shopifyType w) then "drinkware"
  else "other"

/-- The `Option1/2/3 Name`/`Value` slot scan of `_parse_shopify_csv`
(`pages/forms_boutique.py:171-187`), lazily evaluated like the Python
`if`/`elif` chain. -/
def shopifyOptionSlot (row : Row) (target : String) : Except String String := do
  let n1 ← rowGetStrip row "Option1 Name"
  if pyLower n1 = target then rowGetStrip row "Option1 Value"
  else do
    let n2 ← rowGetStrip row "Option2 Name"
    if pyLower n2 = target then rowGetStrip row "Option2 Value"
    else do
      let n3 ← rowGetStrip row "Option3 Name"
      if pyLower n3 = target then rowGetStrip row "Option3 Value"
      else pure ""

/-- The body of the `_parse_shopify_csv` loop for one row
(`pages/forms_boutique.py:121-199`): `none` means the row was skipped
(duplicate variant handle, or blank title); an `Except.error` models an
exception inside the `try`, which the surrounding handler re-raises as a
`ValidationError` aborting the whole parse. -/
def parseShopifyRow (seen : List String) (row : Row) :
    Except String (List String × Option ProductData) := do
  let handle ← rowGetStrip row "Handle"
  if seen.contains handle then return (seen, none)
  let seen := seen ++ [handle]
  let name ← rowGetStrip row "Title"
  if name = "" then return (seen, none)
  let shopifyType := pyLower (← rowGetStrip row "Type")
  let category := shopifyCategory shopifyType
  let price := rowFloatField row "Variant Price"
  let inventory := rowIntField row "Variant Inventory Qty"
  let description0 ← rowGetStrip row "Body (HTML)"
  let description := pyStripTags description0
  let image_url ← rowGetStrip row "Image Src"
  let sizes ← shopifyOptionSlot row "size"
  let colors ← shopifyOptionSlot row "color"
  return (seen, some
    { name := name
      category := category
      price := price
      description := ⟨description.data.take 1000⟩  -- description[:1000] if description else ''
      inventory := inventory
      sizes := sizes
      colors := colors
      image_url := image_url
      image_path := "" })

def parseShopifyCsvAux (rows : List Row) (rowNum : Nat) (seen : List String)
    (acc : List ProductData) : Except String (List ProductData) :=
  match rows with
  | [] => .ok acc
  | r :: rs =>
    match parseShopifyRow seen r with
    | .ok (seen', some pd) => parseShopifyCsvAux rs (rowNum + 1) seen' (acc ++ [pd])
    | .ok (seen', none) => parseShopifyCsvAux rs (rowNum + 1) seen' acc
    | .error e => .error s!"Row {rowNum}: {e}"

/-- `BoutiqueImportForm._parse_shopify_csv` (`pages/forms_boutique.py:114-207`). -/
def parseShopifyCsv (rows : List Row) : Except String (List ProductData) := do
  let pds ← parseShopifyCsvAux rows 2 [] []
  if pds.isEmpty then .error "CSV file contains no valid product data"
  else return pds

/-- Insert-or-overwrite for the dict comprehension building `row_lower`. -/
def upsert (m : Row) (k : String) (v : Cell) : Row :=
  if m.any (fun p => p.1 = k) then m.map (fun p => if p.1 = k then (k, v) else p)
  else m ++ [(k, v)]

/-- `row_lower = {k.lower().strip(): v for k, v in row.items()}`
(`pages/forms_boutique.py:218`). -/
def rowLower (row : Row) : Row :=
  row.foldl (fun m p => upsert m (pyStrip (pyLower p.1)) p.2) []

/-- `row_lower.get(k, dflt).strip()` (raises on a `None` cell). -/
def rowGetStripD (row : Row) (k dflt : String) : Except String String :=
  match rowGet row k (some dflt) with
  | some s => .ok (pyStrip s)
  | none => .error "'NoneType' object has no attribute 'strip'"

/-- The price block of the `_parse_standard_csv` loop
(`pages/forms_boutique.py:231-238`): `price_str = row_lower.get('price', '0')
or '0'`, then `float` after stripping `$` and `,`, with the negative clamp and
the `except`-to-zero fallback. -/
def standardPrice (rl : Row) : Rat :=
  let priceStr := match rowGet rl "price" (some "0") with
    | some s => if s = "" then "0" else s
    | none => "0"
  match pyFloat (pyStrip (pyReplace (pyReplace priceStr "$" "") "," "")) with
  | some q => if q < 0 then 0 else q
  | none => 0

/-- The body of the `_parse_standard_csv` loop for one row
(`pages/forms_boutique.py:215-266`): `none` is a blank-name skip; an
`Except.error` models an exception inside the `try`, which the handler turns
into a skipped row. -/
def parseStandardRow (row : Row) : Except String (Option ProductData) := do
  let rl := rowLower row
  let name ← rowGetStrip rl "name"
  if name = "" then return none
  let category0 ← rowGetStripD rl "category" "other"
  let category :=
    if ["apparel", "accessories", "drinkware", "other"].contains (pyLower category0)
    then pyLower category0 else "other"
  let price := standardPrice rl
  let inventory := rowIntField rl "inventory"
  let image_url ← rowGetStrip rl "image_url"
  let image_path ← rowGetStrip rl "image_path"
  let description ← rowGetStrip rl "description"
  let sizes ← rowGetStrip rl "sizes"
  let colors ← rowGetStrip rl "colors"
  return some
    { name := name
      category := category
      price := price
      description := description
      inventory := inventory
      sizes := sizes
      colors := colors
      image_url := image_url
      image_path := image_path }

/-- The `_parse_standard_csv` loop (`pages/forms_boutique.py:215-266`):
accumulates the parsed records and the `skipped_rows` messages. -/
def parseStandardCsvAux (rows : List Row) (rowNum : Nat)
    (acc : List ProductData) (skipped : List String) :
    List ProductData × List String :=
  match rows with
  | [] => (acc, skipped)
  | r :: rs =>
    match parseStandardRow r with
    | .ok (some pd) => parseStandardCsvAux rs (rowNum + 1) (acc ++ [pd]) skipped
    | .ok none =>
      parseStandardCsvAux rs (rowNum + 1) acc (skipped ++ [s!"Row {rowNum}: No product name"])
    | .error e =>
      parseStandardCsvAux rs (rowNum + 1) acc (skipped ++ [s!"Row {rowNum}: {e}"])

/-- `BoutiqueImportForm._parse_standard_csv` (`pages/forms_boutique.py:209-273`). -/
def parseStandardCsv (rows : List Row) : Except String (List ProductData) :=
  let (pds, skipped) := parseStandardCsvAux rows 2 [] []
  if pds.isEmpty then
    if ¬skipped.isEmpty then
      let issues := String.intercalate "; " (skipped.take 5)
      .error ("CSV file contains no valid product data. Issues: " ++ issues)
    else .error "CSV file contains no valid product data"
  else .ok pds

/-- `BoutiqueImportForm.parse_csv` (`pages/forms_boutique.py:57-112`), from
the header (as read, BOM still attached to the first header name) and the data
lines. -/
def parseCsv (rawFieldnames : List String) (records : List (List String)) :
    Except String (List ProductData) :=
  let fieldnames := stripBomHead rawFieldnames
  match detectBoutiqueFormat fieldnames with
  | .emptyFile => .error "CSV file is empty or has no header row"
  | .shopify => parseShopifyCsv (dictRows fieldnames records)
  | .missingColumns missing =>
    .error ("CSV must contain these columns: " ++ String.intercalate ", " missing
      ++ ". Found columns: " ++ String.intercalate ", " fieldnames)
  | .standard => parseStandardCsv (dictRows fieldnames records)

/-! ## Merchandise import against the product store
(`import_products`, `pages/views.py:3412-3500`) -/

/-- The slice of `Product` the import touches; `image` holds the stored image
bytes (`none` = imageless). -/
structure Product where
  name : String
  description : String
  category : String
  price : Rat
  inventory : Int
  sizes : String
  colors : String
  image : Option String
deriving Repr, DecidableEq

/-- The image side-effect of `import_products` (`pages/views.py:3452-3480`):
an `image_path` found in the uploaded archive wins; only when no image path
was supplied (or no archive accompanies the import) is the `image_url`
download attempted; a failed download leaves the product as is. -/
def resolveImage (imagesDict : List (String × String)) (download : String → Option String)
    (pd : ProductData) (p : Product) : Product :=
  if pd.image_path ≠ "" ∧ ¬imagesDict.isEmpty then
    match imagesDict.lookup pd.image_path with
    | some bytes => { p with image := some bytes }
    | none => p
  else if pd.image_url ≠ "" then
    match download pd.image_url with
    | some bytes => { p with image := some bytes }
    | none => p
  else p

/-- The `defaults` of `Product.objects.get_or_create`
(`pages/views.py:3440-3450`): applied only when no product of that name
exists.  (`Decimal(str(price))` and `int(inventory)` are identities here: the
parsers always supply both fields.) -/
def newProductFromData (pd : ProductData) : Product :=
  ⟨pd.name, pd.description, pd.category, pd.price, pd.inventory, pd.sizes, pd.colors, none⟩

/-- One iteration of the `import_products` loop (`pages/views.py:3438-3487`):
`get_or_create` by name, then the image side effect (which runs whether or not
the product pre-existed); returns the updated store and the `created`
increment. -/
def importProductRow (imagesDict : List (String × String)) (download : String → Option String)
    (store : List Product) (pd : ProductData) : List Product × Nat :=
  match store.find? (fun q => q.name == pd.name) with
  | some _ =>
    (store.map (fun q => if q.name == pd.name then resolveImage imagesDict download pd q else q), 0)
  | none =>
    (store ++ [resolveImage imagesDict download pd (newProductFromData pd)], 1)

/-- The `import_products` loop (`pages/views.py:3435-3487`): returns the final
store, `created_count` and `error_count`.  The per-record step of this model
is total, so the `except` at `pages/views.py:3485` is unreachable and the
error count stays `0`. -/
def importProducts (imagesDict : List (String × String)) (download : String → Option String)
    (store : List Product) (pds : List ProductData) : List Product × Nat × Nat :=
  pds.foldl
    (fun acc pd =>
      let (st, created, errs) := acc
      let (st', c) := importProductRow imagesDict download st pd
      (st', created + c, errs))
    (store, 0, 0)

/-! ## Row builders used in the theorems -/

/-- A standard-format member import row. -/
def mkMemberRow (mn fn ln d : String) : Row :=
  [("member_number", some mn), ("first_name", some fn), ("last_name", some ln),
   ("initiation_date", some d)]

/-- A standard-format officer import row. -/
def mkOfficerRow (fn pos em : String) : Row :=
  [("full_name", some fn), ("position", some pos), ("email", some em)]

/-- A standard-format merchandise import row. -/
def mkStandardRow (nm cat pr inv : String) : Row :=
  [("name", some nm), ("category", some cat), ("price", some pr),
   ("inventory", some inv)]

/-- A storefront (Shopify) export row with one option slot. -/
def mkShopifyRow (handle title typ price inv desc img o1n o1v : String) : Row :=
  [("Handle", some handle), ("Title", some title), ("Type", some typ),
   ("Variant Price", some price), ("Variant Inventory Qty", some inv),
   ("Body (HTML)", some desc), ("Image Src", some img),
   ("Option1 Name", some o1n), ("Option1 Value", some o1v)]

/-! ## Concrete sample inputs used by the witness theorems -/

/-- A concrete member profile with number `A001` (witness input). -/
def sampleA001 : MemberProfileR :=
  ⟨"u1", "A001", "financial", none, "Alpha", "1", "555-0001", "EC1", "555-1001",
   "1 Main St", "bio1", true, none, ""⟩

/-- A concrete member profile with number `A002` (witness input); it starts
with a stale grace-period mark to exercise clearing as well. -/
def sampleA002 : MemberProfileR :=
  ⟨"u2", "A002", "non_financial", some ⟨2019, 5, 4⟩, "Beta", "2", "555-0002", "EC2",
   "555-1002", "2 Main St", "bio2", false, some 17, "old reason"⟩

/-- A concrete member profile with number `A003` (witness input). -/
def sampleA003 : MemberProfileR :=
  ⟨"u3", "A003", "financial_life_member", none, "Gamma", "3", "555-0003", "EC3",
   "555-1003", "3 Main St", "bio3", true, none, ""⟩

/-! ## Claim theorems -/

/-- A concrete image-fetch oracle (witness input): exactly the URL
`http://x/a.jpg` downloads, yielding the bytes `IMG`. -/
def sampleDownload : String → Option String :=
  fun u => if u = "http://x/a.jpg" then some "IMG" else none

/-! ## Small evaluation lemmas -/

@[simp] theorem pyStrip_empty : pyStrip "" = "" := rfl

@[simp] theorem pyLower_empty : pyLower "" = "" := rfl

/-- C1: in reconcile-with-HQ-list mode, syncing a store holding members
`A001, A002, A003` against the HQ list `{A001, A003}` marks `A002` with the
grace-period timestamp `now`, changes no other field of `A002`, deletes
nothing (all three members survive, in place); a second sync whose list holds
`A001, A002, A003` clears `A002`'s grace-period marker. -/
theorem hq_sync_grace_mark_and_clear (m1 m2 m3 : MemberProfileR) (now now2 : Nat)
    (h1 : m1.member_number = "A001") (h2 : m2.member_number = "A002")
    (h3 : m3.member_number = "A003") :
    syncWithHq now ["A001", "A003"] [m1, m2, m3] =
      [{ m1 with marked_for_removal_date := none },
       { m2 with marked_for_removal_date := some now },
       { m3 with marked_for_removal_date := none }] ∧
    syncWithHq now2 ["A001", "A002", "A003"]
        (syncWithHq now ["A001", "A003"] [m1, m2, m3]) =
      [{ m1 with marked_for_removal_date := none },
       { m2 with marked_for_removal_date := none },
       { m3 with marked_for_removal_date := none }] := by
  simp [syncWithHq, h1, h2, h3]

/-- C1 witness: the sync theorem applied at three concrete member profiles and
the concrete instants 5 and 9. -/
theorem hq_sync_grace_mark_and_clear_witness :
    sampleA001.member_number = "A001" ∧ sampleA002.member_number = "A002" ∧
    sampleA003.member_number = "A003" ∧
    (syncWithHq 5 ["A001", "A003"] [sampleA001, sampleA002, sampleA003] =
      [{ sampleA001 with marked_for_removal_date := none },
       { sampleA002 with marked_for_removal_date := some 5 },
       { sampleA003 with marked_for_removal_date := none }] ∧
    syncWithHq 9 ["A001", "A002", "A003"]
        (syncWithHq 5 ["A001", "A003"] [sampleA001, sampleA002, sampleA003]) =
      [{ sampleA001 with marked_for_removal_date := none },
       { sampleA002 with marked_for_removal_date := none },
       { sampleA003 with marked_for_removal_date := none }]) :=
  ⟨rfl, rfl, rfl, hq_sync_grace_mark_and_clear sampleA001 sampleA002 sampleA003 5 9 rfl rfl rfl⟩

/-- C2 counterexample: for the concrete row `A9, Jo, Do` with the unparseable
initiation date `junk`, the run's error count stays `0` — the row is tallied
as a success (`_process_csv_row` returns `(True, [date_error], False)`, so
`_process_csv_file` increments `success_count`, `pages/views.py:1318-1321`) —
whereas the claim says the errors count increments by exactly 1 for that
row. -/
theorem bad_date_error_tally_not_incremented :
    processCsvFile MemberStore.empty [mkMemberRow "A9" "Jo" "Do" "junk"] =
      (⟨[⟨"member_A9", "", "Jo", "Do"⟩],
        [⟨"member_A9", "A9", "financial", none, "", "", "", "", "", "", "", true, none, ""⟩]⟩,
       1, 0, 0,
       ["Row 2: Invalid date format for 'member_A9'. Use YYYY-MM-DD or MM/DD/YYYY"]) ∧
    (0 : Nat) ≠ 1 := ⟨by rfl, by decide⟩

/-- C2 (amended): a member row whose initiation date fails both accepted
date patterns is still persisted (user and profile created, every other field
taken from the row, the date left empty), exactly one error string naming the
row number joins the `errors` list, and the row is tallied as a success:
the run reports `success = 1, error_count = 0, skipped = 0`. -/
theorem bad_date_row_persisted (d : String) (hd : pyStrip d ≠ "")
    (h1 : parseDateYMD (pyStrip d) = none) (h2 : parseDateMDY (pyStrip d) = none) :
    processCsvFile MemberStore.empty [mkMemberRow "A9" "Jo" "Do" d] =
      (⟨[⟨"member_A9", "", "Jo", "Do"⟩],
        [⟨"member_A9", "A9", "financial", none, "", "", "", "", "", "", "", true, none, ""⟩]⟩,
       1, 0, 0,
       ["Row 2: Invalid date format for 'member_A9'. Use YYYY-MM-DD or MM/DD/YYYY"]) := by
  have hval : validateCsvRow MemberStore.empty (mkMemberRow "A9" "Jo" "Do" d) 2 =
      Except.ok ⟨some "member_A9", "", "A9", [], false⟩ := by rfl
  have hcreate : createMemberFromRow MemberStore.empty (mkMemberRow "A9" "Jo" "Do" d)
      "member_A9" "" "A9" none =
      Except.ok ⟨[⟨"member_A9", "", "Jo", "Do"⟩],
        [⟨"member_A9", "A9", "financial", none, "", "", "", "", "", "", "", true, none, ""⟩]⟩ := by rfl
  have hget : rowGet (mkMemberRow "A9" "Jo" "Do" d) "initiation_date" (some "") = some d := rfl
  have hparse : parseInitiationDate d 2 "member_A9" =
      (none, some "Row 2: Invalid date format for 'member_A9'. Use YYYY-MM-DD or MM/DD/YYYY") := by
    simp only [parseInitiationDate, hd, h1, h2, if_neg]
    rfl
  simp [processCsvFile, processCsvFileAux, processCsvRow, hval, hget, hparse, hcreate,
    Bind.bind, Except.bind, Pure.pure, Except.pure, Functor.map, Except.map]

/-- C2 witness: the malformed-date theorem applied at the concrete date string
`junk`, which fails both accepted date patterns. -/
theorem bad_date_row_persisted_witness :
    pyStrip "junk" ≠ "" ∧ parseDateYMD (pyStrip "junk") = none ∧
    parseDateMDY (pyStrip "junk") = none ∧
    processCsvFile MemberStore.empty [mkMemberRow "A9" "Jo" "Do" "junk"] =
      (⟨[⟨"member_A9", "", "Jo", "Do"⟩],
        [⟨"member_A9", "A9", "financial", none, "", "", "", "", "", "", "", true, none, ""⟩]⟩,
       1, 0, 0,
       ["Row 2: Invalid date format for 'member_A9'. Use YYYY-MM-DD or MM/DD/YYYY"]) :=
  ⟨by decide, by rfl, by rfl,
   bad_date_row_persisted "junk" (by decide) (by rfl) (by rfl)⟩

/-- C3 counterexample: in the member import, a row whose member number is
blank (but which carries first and last names) is counted in the errors tally
(`error_count = 1`) with the row error `Member number is required`, and not in
the skipped tally (`skipped = 0`) — the claim says such a row lands in
`skipped` and never in `errors`. -/
theorem blank_identifier_member_is_error :
    processCsvFile MemberStore.empty [mkMemberRow "" "Jo" "Do" ""] =
      (MemberStore.empty, 0, 1, 0, ["Row 2: Member number is required"]) := by rfl

/-- C3 (amended): a blank-identifier row never produces a persisted entity in
any pipeline; in the officer import it is counted as skipped with no error,
and in the merchandise import it is recorded in the parser's skipped-rows list
(standard format) or silently dropped while later rows still import
(storefront format); the member import instead counts such a row in the
errors tally with a row error message. -/
theorem blank_identifier_rows (store : List Officer) (fn ln d ofn pos em nm cat pr inv : String)
    (hfn : pyStrip fn ≠ "") (hln : pyStrip ln ≠ "")
    (hofn : pyStrip ofn = "") (hnm : pyStrip nm = "") :
    processCsvFile MemberStore.empty [mkMemberRow "" fn ln d] =
      (MemberStore.empty, 0, 1, 0, ["Row 2: Member number is required"]) ∧
    processOfficerCsvFile store [mkOfficerRow ofn pos em] = (store, 0, 0, 1, []) ∧
    parseStandardCsvAux [mkStandardRow nm cat pr inv] 2 [] [] =
      ([], ["Row 2: No product name"]) ∧
    parseCsv ["Handle", "Title", "Variant Price"] [["h1", "", "5"], ["h2", "Mug", "5"]] =
      Except.ok [⟨"Mug", "other", 5, "", 0, "", "", "", ""⟩] := by
  refine ⟨?_, ?_, ?_, by rfl⟩
  · simp [processCsvFile, processCsvFileAux, processCsvRow, validateCsvRow, mkMemberRow,
      rowGetStrip3, rowGetStrip2, rowGetStrip, rowGet, rowGetTruthy, textbox7Names,
      MemberStore.empty, hfn, hln, Bind.bind, Except.bind, Pure.pure, Except.pure,
      List.lookup]
    rfl
  · simp [processOfficerCsvFile, processOfficerCsvFileAux, processOfficerCsvRow,
      validateOfficerCsvRow, mkOfficerRow, rowGetStrip3, rowGetStrip, rowGet, rowGetTruthy,
      hofn, pyContains, pySplit, Bind.bind, Except.bind, Pure.pure, Except.pure, List.lookup]
    split_ifs <;> rfl
  · have h1 : rowGetStrip (rowLower (mkStandardRow nm cat pr inv)) "name" =
        Except.ok (pyStrip nm) := by rfl
    have hrow : parseStandardRow (mkStandardRow nm cat pr inv) = Except.ok none := by
      simp only [parseStandardRow, h1, Bind.bind, Except.bind, hnm]
      rfl
    simp only [parseStandardCsvAux, hrow]
    rfl

/-- C3 witness: the amended blank-identifier theorem applied at concrete
rows. -/
theorem blank_identifier_rows_witness :
    pyStrip "Jo" ≠ "" ∧ pyStrip " " = "" ∧
    (processCsvFile MemberStore.empty [mkMemberRow "" "Jo" "Do" ""] =
      (MemberStore.empty, 0, 1, 0, ["Row 2: Member number is required"]) ∧
    processOfficerCsvFile [] [mkOfficerRow " " "Treasurer" "e@x.org"] = ([], 0, 0, 1, []) ∧
    parseStandardCsvAux [mkStandardRow " " "apparel" "5" "3"] 2 [] [] =
      ([], ["Row 2: No product name"]) ∧
    parseCsv ["Handle", "Title", "Variant Price"] [["h1", "", "5"], ["h2", "Mug", "5"]] =
      Except.ok [⟨"Mug", "other", 5, "", 0, "", "", "", ""⟩]) :=
  ⟨by decide, by decide,
   blank_identifier_rows [] "Jo" "Do" "" " " "Treasurer" "e@x.org" " " "apparel" "5" "3"
     (by decide) (by decide) (by decide) (by decide)⟩

/-- C4 (code bug): re-running the same officer file is not idempotent.  The
duplicate check (`pages/views.py:1465`) filters on the raw CSV position
string, but `_create_officer_from_row` stores the mapped position value
(`position_map`, `pages/views.py:1498-1516`), so a row `John Doe, Treasurer`
whose stored position is `treasurer` is re-created — not skipped — on the
second run, leaving two identical records.  This contradicts the code's own
comment ("skip if same person in same position") and the claim. -/
theorem officer_reimport_creates_duplicate :
    processOfficerCsvFile [] [mkOfficerRow "John Doe" "Treasurer" ""] =
      ([⟨"John Doe", "treasurer", "", "", "", "", 0, true⟩], 1, 0, 0, []) ∧
    processOfficerCsvFile [⟨"John Doe", "treasurer", "", "", "", "", 0, true⟩]
        [mkOfficerRow "John Doe" "Treasurer" ""] =
      ([⟨"John Doe", "treasurer", "", "", "", "", 0, true⟩,
        ⟨"John Doe", "treasurer", "", "", "", "", 0, true⟩], 1, 0, 0, []) :=
  ⟨by rfl, by rfl⟩

/-- C5 counterexample: in the storefront (Shopify) format nothing strips
currency symbols or thousands separators, so a row whose `Variant Price` is
`$1,234.50` parses to price `0`, not `1234.50` — the claim asserts `1234.50`
for both formats.  The row is still persisted. -/
theorem shopify_currency_price_is_zero :
    parseCsv ["Handle", "Title", "Variant Price"] [["h1", "Mug", "$1,234.50"]] =
      Except.ok [⟨"Mug", "other", 0, "", 0, "", "", "", ""⟩] ∧ (0 : Rat) ≠ 1234.5 :=
  ⟨by rfl, by norm_num⟩

/-- C5 (amended): in the standard format, `$` and `,` are stripped before
`float`, so a price cell `$1,234.50` parses to `1234.50`, and an unparseable
non-empty price cell parses to `0`; in the storefront format no stripping
occurs, so any `Variant Price` cell that `float` rejects (including
`$1,234.50`) parses to `0`.  In both formats such rows are still persisted,
not rejected (shown on concrete rows). -/
theorem price_parsing (rl rl' : Row) (p s : String)
    (h1 : rowGet rl "price" (some "0") = some "$1,234.50")
    (h2 : rowGet rl' "price" (some "0") = some p) (hp : p ≠ "")
    (hpf : pyFloat (pyStrip (pyReplace (pyReplace p "$" "") "," "")) = none)
    (hs : pyFloat s = none) :
    standardPrice rl = mkRat 2469 2 ∧ (mkRat 2469 2 : Rat) = 1234.5 ∧
    standardPrice rl' = 0 ∧
    pyFloatField (some s) false = 0 ∧
    parseStandardCsvAux [mkStandardRow "Tee" "apparel" "$1,234.50" "7"] 2 [] [] =
      ([⟨"Tee", "apparel", mkRat 2469 2, "", 7, "", "", "", ""⟩], []) ∧
    parseStandardCsvAux [mkStandardRow "Tee" "apparel" "abc" "7"] 2 [] [] =
      ([⟨"Tee", "apparel", 0, "", 7, "", "", "", ""⟩], []) ∧
    parseCsv ["Handle", "Title", "Variant Price"] [["h1", "Mug", "$1,234.50"]] =
      Except.ok [⟨"Mug", "other", 0, "", 0, "", "", "", ""⟩] := by
  refine ⟨?_, ?_, ?_, ?_, by rfl, by rfl, by rfl⟩
  · simp only [standardPrice, h1]
    rfl
  · rw [Rat.mkRat_eq_div]
    norm_num
  · simp only [standardPrice, h2]
    rw [if_neg hp, hpf]
  · simp only [pyFloatField]
    by_cases hse : s = ""
    · rw [if_pos hse]
      rfl
    · rw [if_neg hse, hs]
      rfl

/-- C5 witness: the price theorem applied at the concrete rows
`name=Tee, price=$1,234.50` and `name=Tee, price=abc` (standard format) and
the storefront price cell `$1,234.50`, which `float` rejects. -/
theorem price_parsing_witness :
    rowGet (rowLower (mkStandardRow "Tee" "apparel" "$1,234.50" "7")) "price" (some "0") =
      some "$1,234.50" ∧
    rowGet (rowLower (mkStandardRow "Tee" "apparel" "abc" "7")) "price" (some "0") =
      some "abc" ∧
    ("abc" : String) ≠ "" ∧
    pyFloat (pyStrip (pyReplace (pyReplace "abc" "$" "") "," "")) = none ∧
    pyFloat "$1,234.50" = none ∧
    (standardPrice (rowLower (mkStandardRow "Tee" "apparel" "$1,234.50" "7")) = mkRat 2469 2 ∧
    (mkRat 2469 2 : Rat) = 1234.5 ∧
    standardPrice (rowLower (mkStandardRow "Tee" "apparel" "abc" "7")) = 0 ∧
    pyFloatField (some "$1,234.50") false = 0 ∧
    parseStandardCsvAux [mkStandardRow "Tee" "apparel" "$1,234.50" "7"] 2 [] [] =
      ([⟨"Tee", "apparel", mkRat 2469 2, "", 7, "", "", "", ""⟩], []) ∧
    parseStandardCsvAux [mkStandardRow "Tee" "apparel" "abc" "7"] 2 [] [] =
      ([⟨"Tee", "apparel", 0, "", 7, "", "", "", ""⟩], []) ∧
    parseCsv ["Handle", "Title", "Variant Price"] [["h1", "Mug", "$1,234.50"]] =
      Except.ok [⟨"Mug", "other", 0, "", 0, "", "", "", ""⟩]) :=
  ⟨by rfl, by rfl, by decide, by rfl, by rfl,
   price_parsing (rowLower (mkStandardRow "Tee" "apparel" "$1,234.50" "7"))
     (rowLower (mkStandardRow "Tee" "apparel" "abc" "7")) "abc" "$1,234.50"
     (by rfl) (by rfl) (by decide) (by rfl) (by rfl)⟩

/-- C9: a generic-format file with header `name,category,price,inventory` and
the single row `Chapter Mug,drinkware,12.50,40`, imported into a store with no
product of that name, parses to exactly one record and creates exactly one
product with name `Chapter Mug`, category `drinkware`, price `12.50`
(`mkRat 25 2`), inventory `40`; the run reports `created = 1`, `errors = 0`,
and the parser's skipped-rows list is empty. -/
theorem generic_import_chapter_mug :
    parseCsv ["name", "category", "price", "inventory"]
        [["Chapter Mug", "drinkware", "12.50", "40"]] =
      Except.ok [⟨"Chapter Mug", "drinkware", mkRat 25 2, "", 40, "", "", "", ""⟩] ∧
    (mkRat 25 2 : Rat) = 12.5 ∧
    parseStandardCsvAux (dictRows ["name", "category", "price", "inventory"]
        [["Chapter Mug", "drinkware", "12.50", "40"]]) 2 [] [] =
      ([⟨"Chapter Mug", "drinkware", mkRat 25 2, "", 40, "", "", "", ""⟩], []) ∧
    importProducts [] (fun _ => none) []
        [⟨"Chapter Mug", "drinkware", mkRat 25 2, "", 40, "", "", "", ""⟩] =
      ([⟨"Chapter Mug", "", "drinkware", mkRat 25 2, 40, "", "", none⟩], 1, 0) :=
  ⟨by rfl, by rw [Rat.mkRat_eq_div]; norm_num, by rfl, by rfl⟩

/-- C8: in a storefront export, two rows sharing the same `Handle` but
carrying different `Size` option values collapse to exactly one record whose
`sizes` field comes from the first row only, and importing it creates exactly
one entity with that size. -/
theorem shopify_variant_collapse (sz1 sz2 : String) (hsz : sz1 ≠ sz2) :
    parseShopifyCsv [mkShopifyRow "tshirt" "Shirt" "" "5" "" "" "" "Size" sz1,
                     mkShopifyRow "tshirt" "Shirt" "" "5" "" "" "" "Size" sz2] =
      Except.ok [⟨"Shirt", "other", 5, "", 0, pyStrip sz1, "", "", ""⟩] ∧
    importProducts [] (fun _ => none) []
        [⟨"Shirt", "other", 5, "", 0, pyStrip sz1, "", "", ""⟩] =
      ([⟨"Shirt", "", "other", 5, 0, pyStrip sz1, "", none⟩], 1, 0) := by
  have hr1 : parseShopifyRow [] (mkShopifyRow "tshirt" "Shirt" "" "5" "" "" "" "Size" sz1) =
      Except.ok (["tshirt"], some ⟨"Shirt", "other", 5, "", 0, pyStrip sz1, "", "", ""⟩) := by
    rfl
  have hr2 : parseShopifyRow ["tshirt"]
      (mkShopifyRow "tshirt" "Shirt" "" "5" "" "" "" "Size" sz2) =
      Except.ok (["tshirt"], none) := by rfl
  refine ⟨?_, by rfl⟩
  simp only [parseShopifyCsv, parseShopifyCsvAux, hr1, hr2, Bind.bind, Except.bind]
  rfl

/-- C8 witness: the variant-collapse theorem applied at the concrete size
values `M` and `L`. -/
theorem shopify_variant_collapse_witness :
    ("M" : String) ≠ "L" ∧
    (parseShopifyCsv [mkShopifyRow "tshirt" "Shirt" "" "5" "" "" "" "Size" "M",
                      mkShopifyRow "tshirt" "Shirt" "" "5" "" "" "" "Size" "L"] =
      Except.ok [⟨"Shirt", "other", 5, "", 0, pyStrip "M", "", "", ""⟩] ∧
    importProducts [] (fun _ => none) []
        [⟨"Shirt", "other", 5, "", 0, pyStrip "M", "", "", ""⟩] =
      ([⟨"Shirt", "", "other", 5, 0, pyStrip "M", "", none⟩], 1, 0)) :=
  ⟨by decide, shopify_variant_collapse "M" "L" (by decide)⟩

/-- Helper: the image side effect either leaves the product untouched or
changes only its `image` field. -/
theorem resolveImage_cases (d : List (String × String)) (dl : String → Option String)
    (pd : ProductData) (p : Product) :
    resolveImage d dl pd p = p ∨
    ∃ b, resolveImage d dl pd p = { p with image := some b } := by
  unfold resolveImage
  by_cases h1 : pd.image_path ≠ "" ∧ ¬d.isEmpty
  · rw [if_pos h1]
    cases hl : d.lookup pd.image_path with
    | none => left; rfl
    | some b => right; exact ⟨b, rfl⟩
  · rw [if_neg h1]
    by_cases h2 : pd.image_url ≠ ""
    · rw [if_pos h2]
      cases hdl : dl pd.image_url with
      | none => left; rfl
      | some b => right; exact ⟨b, rfl⟩
    · rw [if_neg h2]
      left
      rfl

/-- C10 counterexample: a row for an existing product that supplies an image
path NOT found in the accompanying archive together with an image URL that
downloads successfully leaves the product's image unchanged — the URL branch
is never tried (`elif`, `pages/views.py:3463`) — whereas the claim says the
image field is overwritten whenever the URL downloads successfully. -/
theorem existing_product_url_shadowed_by_path :
    importProductRow [("other.png", "B")] sampleDownload
        [⟨"Mug", "", "other", 5, 0, "", "", none⟩]
        ⟨"Mug", "other", 5, "", 0, "", "", "http://x/a.jpg", "missing.png"⟩ =
      ([⟨"Mug", "", "other", 5, 0, "", "", none⟩], 0) ∧
    sampleDownload "http://x/a.jpg" = some "IMG" := ⟨by rfl, by rfl⟩

/-- C10 (amended): importing a row whose name matches an existing product
creates nothing (`created` increment `0`) and leaves the product's
description, category, price, inventory, sizes and colors unchanged (the
creation defaults apply only to new products); its image is overwritten when
the row's image path is found in the accompanying archive, or when the row
supplies no image path (or no archive accompanies the import) and its image
URL downloads successfully; a row with neither image source leaves the image
unchanged. -/
theorem existing_product_update (imagesDict : List (String × String))
    (download : String → Option String) (p : Product) (pd : ProductData)
    (hname : p.name = pd.name) :
    importProductRow imagesDict download [p] pd =
      ([resolveImage imagesDict download pd p], 0) ∧
    (resolveImage imagesDict download pd p).name = p.name ∧
    (resolveImage imagesDict download pd p).description = p.description ∧
    (resolveImage imagesDict download pd p).category = p.category ∧
    (resolveImage imagesDict download pd p).price = p.price ∧
    (resolveImage imagesDict download pd p).inventory = p.inventory ∧
    (resolveImage imagesDict download pd p).sizes = p.sizes ∧
    (resolveImage imagesDict download pd p).colors = p.colors ∧
    (pd.image_path ≠ "" → ∀ b, imagesDict.lookup pd.image_path = some b →
      (resolveImage imagesDict download pd p).image = some b) ∧
    ((pd.image_path = "" ∨ imagesDict.isEmpty) → pd.image_url ≠ "" →
      ∀ b, download pd.image_url = some b →
      (resolveImage imagesDict download pd p).image = some b) ∧
    (pd.image_path = "" → pd.image_url = "" →
      (resolveImage imagesDict download pd p).image = p.image) := by
  have hbeq : (p.name == pd.name) = true := by
    rw [hname]
    exact beq_self_eq_true _
  refine ⟨?_, ?_, ?_, ?_, ?_, ?_, ?_, ?_, ?_, ?_, ?_⟩
  · simp [importProductRow, List.find?, hbeq, hname]
  · rcases resolveImage_cases imagesDict download pd p with h | ⟨b, h⟩ <;> rw [h]
  · rcases resolveImage_cases imagesDict download pd p with h | ⟨b, h⟩ <;> rw [h]
  · rcases resolveImage_cases imagesDict download pd p with h | ⟨b, h⟩ <;> rw [h]
  · rcases resolveImage_cases imagesDict download pd p with h | ⟨b, h⟩ <;> rw [h]
  · rcases resolveImage_cases imagesDict download pd p with h | ⟨b, h⟩ <;> rw [h]
  · rcases resolveImage_cases imagesDict download pd p with h | ⟨b, h⟩ <;> rw [h]
  · rcases resolveImage_cases imagesDict download pd p with h | ⟨b, h⟩ <;> rw [h]
  · intro hpath b hb
    have hd : ¬imagesDict.isEmpty := by
      cases imagesDict with
      | nil => simp [List.lookup] at hb
      | cons x xs => simp [List.isEmpty]
    unfold resolveImage
    rw [if_pos ⟨hpath, hd⟩, hb]
  · intro hcond hurl b hdl
    have hnot : ¬(pd.image_path ≠ "" ∧ ¬imagesDict.isEmpty) := by
      rcases hcond with h | h
      · intro hc
        exact hc.1 h
      · intro hc
        exact hc.2 h
    unfold resolveImage
    rw [if_neg hnot, if_pos hurl, hdl]
  · intro hpath hurl
    have hnot : ¬(pd.image_path ≠ "" ∧ ¬imagesDict.isEmpty) := by
      intro hc
      exact hc.1 hpath
    unfold resolveImage
    rw [if_neg hnot, if_neg (by simp [hurl])]

/-- C10 witness: the update theorem applied at a concrete existing product
`Mug` and a row supplying only an archive image `a.png`, whose bytes are
`BYTES`. -/
theorem existing_product_update_witness :
    (⟨"Mug", "", "other", 5, 0, "", "", none⟩ : Product).name =
      (⟨"Mug", "other", 5, "", 0, "", "", "", "a.png"⟩ : ProductData).name ∧
    importProductRow [("a.png", "BYTES")] sampleDownload
        [⟨"Mug", "", "other", 5, 0, "", "", none⟩]
        ⟨"Mug", "other", 5, "", 0, "", "", "", "a.png"⟩ =
      ([resolveImage [("a.png", "BYTES")] sampleDownload
          ⟨"Mug", "other", 5, "", 0, "", "", "", "a.png"⟩
          ⟨"Mug", "", "other", 5, 0, "", "", none⟩], 0) ∧
    (resolveImage [("a.png", "BYTES")] sampleDownload
        ⟨"Mug", "other", 5, "", 0, "", "", "", "a.png"⟩
        ⟨"Mug", "", "other", 5, 0, "", "", none⟩).image = some "BYTES" :=
  ⟨by rfl,
   (existing_product_update [("a.png", "BYTES")] sampleDownload
      ⟨"Mug", "", "other", 5, 0, "", "", none⟩
      ⟨"Mug", "other", 5, "", 0, "", "", "", "a.png"⟩ (by rfl)).1,
   (existing_product_update [("a.png", "BYTES")] sampleDownload
      ⟨"Mug", "", "other", 5, 0, "", "", none⟩
      ⟨"Mug", "other", 5, "", 0, "", "", "", "a.png"⟩ (by rfl)).2.2.2.2.2.2.2.2.1
     (by decide) "BYTES" (by rfl)⟩

/-- C6 counterexample: the member-import pipeline's HQ-roster detection is
case-sensitive, so a header row written in lower case — a letter-case variant
of the accepted aliases — is not detected: the header-row search
(`'MAJOR_KEY' in line`) does not find it, and the alias resolution
(`row.get('MAJOR_KEY')`) does not resolve the member number, turning every
data row into a `Member number is required` error, while the exact-case
header works. -/
theorem member_header_detection_case_sensitive :
    findHeaderRowIndex ["x", "MAJOR_KEY,FIRST_NAME,LAST_NAME"] = 1 ∧
    findHeaderRowIndex ["x", "major_key,first_name,last_name"] = 0 ∧
    validateCsvRow MemberStore.empty
        [("MAJOR_KEY", some "A1"), ("first_name", some "Jo"), ("last_name", some "Do")] 2 =
      Except.ok ⟨some "member_A1", "", "A1", [], false⟩ ∧
    validateCsvRow MemberStore.empty
        [("major_key", some "A1"), ("first_name", some "Jo"), ("last_name", some "Do")] 2 =
      Except.ok ⟨some "jo.do", "", "",
        ["Row 2: Member number is required"], false⟩ :=
  ⟨by rfl, by rfl, by rfl, by rfl⟩

/-- C6 (amended): the merchandise format detection (standard and storefront)
and the sync member-number column search match their required aliases
case-insensitively, with insignificant surrounding whitespace and (for the
merchandise file) a BOM stripped from the first header, and a header carrying
only one format's aliases is never classified as the other; the member-import
pipeline's HQ-roster header detection and alias resolution are instead
case-sensitive (`MAJOR_KEY`, `Member#`, `member_number` must appear in
exactly that case). -/
theorem header_format_detection (n c p t v nb tb col : String)
    (hn : pyStrip (pyLower n) = "name") (hc : pyStrip (pyLower c) = "category")
    (hp : pyStrip (pyLower p) = "price") (ht : pyStrip (pyLower t) = "title")
    (hv : pyStrip (pyLower v) = "variant price")
    (hnb : stripBomStr nb = n) (htb : stripBomStr tb = t)
    (hcol : pyStrip (pyLower col) = "member#" ∨ pyStrip (pyLower col) = "member_number" ∨
      pyStrip (pyLower col) = "member number" ∨ pyStrip (pyLower col) = "major_key") :
    detectBoutiqueFormat (stripBomHead [nb, c, p]) = .standard ∧
    detectBoutiqueFormat [n, c, p] = .standard ∧
    detectBoutiqueFormat (stripBomHead [tb, v]) = .shopify ∧
    detectBoutiqueFormat [t, v] = .shopify ∧
    findMemberColumn [col] = some col ∧
    validateCsvRow MemberStore.empty
        [("major_key", some "A1"), ("first_name", some "Jo"), ("last_name", some "Do")] 2 =
      Except.ok ⟨some "jo.do", "", "",
        ["Row 2: Member number is required"], false⟩ := by
  have hstd : detectBoutiqueFormat [n, c, p] = .standard := by
    simp [detectBoutiqueFormat, hn, hc, hp]
  have hshp : detectBoutiqueFormat [t, v] = .shopify := by
    simp [detectBoutiqueFormat, ht, hv]
  refine ⟨?_, hstd, ?_, hshp, ?_, by rfl⟩
  · simpa [stripBomHead, hnb] using hstd
  · simpa [stripBomHead, htb] using hshp
  · rcases hcol with h | h | h | h <;> simp [findMemberColumn, List.find?, h]

/-- C6 witness: the detection theorem applied at the concrete headers
`NAME / Category / PRICE` (with a BOM on the first), `tItLe / Variant PRICE`
(with a BOM on the first) and the sync column `Member#`. -/
theorem header_format_detection_witness :
    pyStrip (pyLower " NAME ") = "name" ∧ pyStrip (pyLower "Category") = "category" ∧
    pyStrip (pyLower "PRICE") = "price" ∧ pyStrip (pyLower "tItLe") = "title" ∧
    pyStrip (pyLower "Variant PRICE") = "variant price" ∧
    stripBomStr "\uFEFF NAME " = " NAME " ∧ stripBomStr "\uFEFFtItLe" = "tItLe" ∧
    (pyStrip (pyLower "Member#") = "member#" ∨ pyStrip (pyLower "Member#") = "member_number" ∨
      pyStrip (pyLower "Member#") = "member number" ∨
      pyStrip (pyLower "Member#") = "major_key") ∧
    (detectBoutiqueFormat (stripBomHead ["\uFEFF NAME ", "Category", "PRICE"]) = .standard ∧
    detectBoutiqueFormat [" NAME ", "Category", "PRICE"] = .standard ∧
    detectBoutiqueFormat (stripBomHead ["\uFEFFtItLe", "Variant PRICE"]) = .shopify ∧
    detectBoutiqueFormat ["tItLe", "Variant PRICE"] = .shopify ∧
    findMemberColumn ["Member#"] = some "Member#" ∧
    validateCsvRow MemberStore.empty
        [("major_key", some "A1"), ("first_name", some "Jo"), ("last_name", some "Do")] 2 =
      Except.ok ⟨some "jo.do", "", "",
        ["Row 2: Member number is required"], false⟩) :=
  ⟨by decide, by decide, by decide, by decide, by decide, by decide, by decide, by decide,
   header_format_detection " NAME " "Category" "PRICE" "tItLe" "Variant PRICE"
     "\uFEFF NAME " "\uFEFFtItLe" "Member#" (by decide) (by decide) (by decide)
     (by decide) (by decide) (by decide) (by decide) (by decide)⟩

/-- C7 counterexample: a storefront-format file that passes format detection
but whose second data line is shorter than the header (its cells are `None`)
aborts the whole import with a row-numbered `ValidationError` — after row 2
was already processed successfully — instead of completing with an aggregate
result: the `except` at `pages/forms_boutique.py:201-202` re-raises row-level
exceptions. -/
theorem shopify_row_failure_aborts_run :
    parseCsv ["Handle", "Title", "Variant Price"] [["h1", "Mug", "5"], ["h2"]] =
      Except.error "Row 3: 'NoneType' object has no attribute 'strip'" := by rfl

/-- C7 (amended): the member and officer imports and the standard-format
merchandise parser process every row to the end whatever each row holds —
every row is tallied exactly once as a success, an error or a skip, so
`success + error + skipped` always equals the number of rows (standard
merchandise: every row lands either in the parsed records or in the
skipped-rows list); only the storefront parser can abort on a row-level
exception. -/
theorem per_row_failures_never_abort (rows : List Row) (store : MemberStore)
    (ostore : List Officer) :
    (processCsvFile store rows).2.1 + (processCsvFile store rows).2.2.1 +
      (processCsvFile store rows).2.2.2.1 = rows.length ∧
    (processOfficerCsvFile ostore rows).2.1 + (processOfficerCsvFile ostore rows).2.2.1 +
      (processOfficerCsvFile ostore rows).2.2.2.1 = rows.length ∧
    (parseStandardCsvAux rows 2 [] []).1.length +
      (parseStandardCsvAux rows 2 [] []).2.length = rows.length := by
  have hm : ∀ (rs : List Row) (st : MemberStore) (rowNum succ err skip : Nat)
      (errs : List String),
      (processCsvFileAux st rs rowNum succ err skip errs).2.1 +
        (processCsvFileAux st rs rowNum succ err skip errs).2.2.1 +
        (processCsvFileAux st rs rowNum succ err skip errs).2.2.2.1 =
        succ + err + skip + rs.length := by
    intro rs
    induction rs with
    | nil => intro st rowNum succ err skip errs; simp [processCsvFileAux]
    | cons r rs ih =>
      intro st rowNum succ err skip errs
      simp only [processCsvFileAux]
      cases hpr : processCsvRow st r rowNum with
      | ok res =>
        obtain ⟨store', success, rowErrs, skipped⟩ := res
        by_cases hs : skipped = true <;> by_cases hb : success = true <;>
          simp [hs, hb, ih, List.length_cons] <;> omega
      | error e =>
        simp [ih, List.length_cons]
        omega
  have ho : ∀ (rs : List Row) (st : List Officer) (rowNum succ err skip : Nat)
      (errs : List String),
      (processOfficerCsvFileAux st rs rowNum succ err skip errs).2.1 +
        (processOfficerCsvFileAux st rs rowNum succ err skip errs).2.2.1 +
        (processOfficerCsvFileAux st rs rowNum succ err skip errs).2.2.2.1 =
        succ + err + skip + rs.length := by
    intro rs
    induction rs with
    | nil => intro st rowNum succ err skip errs; simp [processOfficerCsvFileAux]
    | cons r rs ih =>
      intro st rowNum succ err skip errs
      simp only [processOfficerCsvFileAux]
      cases hpr : processOfficerCsvRow st r rowNum with
      | ok res =>
        obtain ⟨store', success, rowErrs, skipped⟩ := res
        by_cases hs : skipped = true <;> by_cases hb : success = true <;>
          simp [hs, hb, ih, List.length_cons] <;> omega
      | error e =>
        simp [ih, List.length_cons]
        omega
  have hp : ∀ (rs : List Row) (rowNum : Nat) (acc : List ProductData)
      (skipped : List String),
      (parseStandardCsvAux rs rowNum acc skipped).1.length +
        (parseStandardCsvAux rs rowNum acc skipped).2.length =
        acc.length + skipped.length + rs.length := by
    intro rs
    induction rs with
    | nil => intro rowNum acc skipped; simp [parseStandardCsvAux]
    | cons r rs ih =>
      intro rowNum acc skipped
      simp only [parseStandardCsvAux]
      cases hpr : parseStandardRow r with
      | ok res =>
        cases res with
        | some pd => simp [ih, List.length_cons]; omega
        | none => simp [ih, List.length_cons]; omega
      | error e =>
        simp [ih, List.length_cons]
        omega
  refine ⟨?_, ?_, ?_⟩
  · have := hm rows store 2 0 0 0 []
    simpa [processCsvFile] using this
  · have := ho rows ostore 2 0 0 0 []
    simpa [processOfficerCsvFile] using this
  · have := hp rows 2 [] []
    simpa using this

end Capstone
